import Mathlib

/-!
Verification of the Email Composition Workflow Controller of the
Ai-Email-Sender repository, shallowly embedded from
`src/frontend/src/app.jsx` (the `EmailGenerator` React component).

Modelling conventions:
* React `useState` slots become fields of `AppState`; each handler becomes a
  pure function from the pre-state (plus, for the two async operations, the
  environment's response) to the post-state.
* The two `fetch` calls are modelled by an outcome argument
  (`GenOutcome` / `SendOutcome`) describing how the promise settles, and the
  result records the request payload actually posted (`none` = no network
  call was issued).
* A JavaScript string is blank-falsy exactly when it is empty, so the source
  test `!s.trim()` becomes `s.trim.isEmpty` and `!s` becomes `s.isEmpty`.
* An out-of-bounds JS array assignment `a[i] = v` grows the array to length
  `i+1`; the intermediate holes read back as `undefined`, which is falsy and
  blank like the empty string, and are modelled as `""`.
* The `setTimeout` bookkeeping of `showNotification` is modelled separately
  (`NotifState`) with explicit absolute expiry times, since the component
  never cancels a pending timer.
-/

namespace EmailSender

/-- The three navigation tabs (`activeTab`): the spec's Stage. -/
inductive Tab
  | generate
  | preview
  | send
deriving DecidableEq, Repr

/-- Notification kind: `showNotification`'s `type` argument. -/
inductive NotifType
  | success
  | error
deriving DecidableEq, Repr

/-- A visible notification, as stored by `setNotification({ message, type })`. -/
structure Notification where
  message : String
  type : NotifType
deriving DecidableEq, Repr

/-- The `formData` state object (initial values in `initialFormData`). -/
structure FormData where
  prompt : String
  groqApiKey : String
  recipients : List String
  senderEmail : String
  senderPassword : String
  smtpServer : String
  smtpPort : Nat
deriving DecidableEq, Repr

/-- The generation result as parsed from the service: `{ subject, content }`. -/
structure GeneratedEmail where
  subject : String
  content : String
deriving DecidableEq, Repr

/-- The component state: the five `useState` slots of `EmailGenerator`. -/
structure AppState where
  activeTab : Tab
  formData : FormData
  generatedEmail : Option GeneratedEmail
  loading : Bool
  notification : Option Notification
deriving DecidableEq, Repr

/-- Initial `formData` from the `useState` call. -/
def initialFormData : FormData :=
  { prompt := ""
    groqApiKey := ""
    recipients := [""]
    senderEmail := ""
    senderPassword := ""
    smtpServer := "smtp.gmail.com"
    smtpPort := 587 }

/-- Initial component state from the `useState` calls. -/
def initialState : AppState :=
  { activeTab := Tab.generate
    formData := initialFormData
    generatedEmail := none
    loading := false
    notification := none }

/-- Model of JavaScript `String.prototype.trim`: drop leading and trailing
whitespace.  (Defined structurally over the character list so that concrete
instances compute; the engine's whitespace set is modelled by
`Char.isWhitespace`.) -/
def jsTrim (s : String) : String :=
  String.mk (((s.data.dropWhile Char.isWhitespace).reverse.dropWhile
    Char.isWhitespace).reverse)

/-- `showNotification(message, type)` restricted to the visible slot:
`setNotification({ message, type })`.  The 5-second `setTimeout` expiry is
modelled separately in `NotifState` below. -/
def showNotification (s : AppState) (message : String) (type : NotifType) : AppState :=
  { s with notification := some { message := message, type := type } }

/-! ### Recipient-list mutators (`handleRecipientChange`, `addRecipient`,
`removeRecipient`) as pure functions on the `recipients` list. -/

/-- `handleRecipientChange(index, value)`:
`const newRecipients = [...formData.recipients]; newRecipients[index] = value;`.
In-bounds assignment replaces the slot; out-of-bounds assignment grows the
array to length `index+1` (the JS holes read back as `undefined`, modelled as
`""`). -/
def handleRecipientChange (recipients : List String) (index : Nat) (value : String) :
    List String :=
  if index < recipients.length then
    recipients.set index value
  else
    recipients ++ List.replicate (index - recipients.length) "" ++ [value]

/-- `addRecipient()`: appends one blank slot. -/
def addRecipient (recipients : List String) : List String :=
  recipients ++ [""]

/-- `removeRecipient(index)`: when more than one slot is present, keep the
entries whose position differs from `index`
(`formData.recipients.filter((_, i) => i !== index)`); otherwise do nothing. -/
def removeRecipient (recipients : List String) (index : Nat) : List String :=
  if recipients.length > 1 then
    (recipients.enum.filter (fun p => p.1 != index)).map Prod.snd
  else
    recipients

/-- Positional filtering over `enumFrom` is `eraseIdx` of the shifted index
(and the identity when the removed index lies before the start). -/
lemma enumFrom_filter_ne_map (l : List String) :
    ∀ n i : Nat, ((l.enumFrom n).filter (fun p => p.1 != i)).map Prod.snd =
      if i < n then l else l.eraseIdx (i - n) := by
  induction l with
  | nil =>
      intro n i
      simp [List.enumFrom]
  | cons x xs ih =>
      intro n i
      by_cases hni : n = i
      · subst hni
        simp [List.enumFrom, List.filter, ih (n + 1) n, Nat.lt_succ_self]
      · have hb : (n != i) = true := by simpa using hni
        by_cases hlt : i < n
        · have hlt' : i < n + 1 := Nat.lt_succ_of_lt hlt
          simp [List.enumFrom, List.filter, hb, ih (n + 1) i, hlt, hlt']
        · have hgt : n < i := lt_of_le_of_ne (Nat.le_of_not_lt hlt) hni
          have hlt' : ¬ i < n + 1 := by omega
          have hsub : i - n = (i - (n + 1)) + 1 := by omega
          simp [List.enumFrom, List.filter, hb, ih (n + 1) i, hlt, hlt', hsub,
            List.eraseIdx]

/-- On a list with more than one element, `removeRecipient` is `eraseIdx`. -/
lemma removeRecipient_eq_eraseIdx (l : List String) (i : Nat) (h : 1 < l.length) :
    removeRecipient l i = l.eraseIdx i := by
  have := enumFrom_filter_ne_map l 0 i
  simp only [Nat.not_lt_zero, if_false, Nat.sub_zero] at this
  simp [removeRecipient, h, List.enum, this]

/-- `eraseIdx` shortens by at most one element. -/
lemma length_eraseIdx_ge (l : List String) (i : Nat) :
    l.length - 1 ≤ (l.eraseIdx i).length := by
  rcases Nat.lt_or_ge i l.length with h | h
  · rw [List.length_eraseIdx_of_lt h]
  · rw [List.eraseIdx_of_length_le h]
    omega

/-! ### The operation alphabet for reachability of the recipients list. -/

/-- One user action on the recipients list. -/
inductive RecipientsOp
  | set (index : Nat) (value : String)
  | add
  | remove (index : Nat)

/-- Apply one recipients-list action. -/
def applyOp (l : List String) : RecipientsOp → List String
  | RecipientsOp.set i v => handleRecipientChange l i v
  | RecipientsOp.add => addRecipient l
  | RecipientsOp.remove i => removeRecipient l i

/-- Apply a sequence of recipients-list actions, oldest first. -/
def applyOps (l : List String) (ops : List RecipientsOp) : List String :=
  ops.foldl applyOp l

/-- Each single action preserves non-emptiness of the recipients list. -/
lemma applyOp_length_pos (l : List String) (op : RecipientsOp) (h : 1 ≤ l.length) :
    1 ≤ (applyOp l op).length := by
  cases op with
  | set i v =>
      by_cases hi : i < l.length
      · simpa [applyOp, handleRecipientChange, hi] using h
      · simp [applyOp, handleRecipientChange, hi]
        omega
  | add => simp [applyOp, addRecipient]
  | remove i =>
      by_cases hl : l.length > 1
      · have := length_eraseIdx_ge l i
        rw [applyOp, removeRecipient_eq_eraseIdx l i hl]
        omega
      · simpa [applyOp, removeRecipient, hl] using h

/-! ### The generation operation (`generateEmail`). -/

/-- Request payload posted to `/api/generate-email`. -/
structure GenRequest where
  prompt : String
  groq_api_key : String
deriving DecidableEq, Repr

/-- How the generation fetch settles.  `errorResponse` is a response with
`response.ok` false (its body is never read, only its status interpolated
into a thrown error); `okResponse` carries the parsed JSON body, `none`
meaning `response.json()` rejected. -/
inductive GenOutcome
  | networkFailure
  | errorResponse (status : Nat)
  | okResponse (body : Option GeneratedEmail)

/-- The generic message of the generation catch block. -/
def genFailureMessage : String :=
  "Failed to generate email. Please check your API key and try again."

/-- The validation message of `generateEmail`. -/
def genValidationMessage : String := "Please provide both a prompt and Groq API key"

/-- The success message of `generateEmail`. -/
def genSuccessMessage : String := "Email generated successfully!"

/-- Result of one invocation of an async operation: the post-state once the
call has settled, and the payload posted (`none` = no network call). -/
structure GenResult where
  state : AppState
  request : Option GenRequest

/-- `generateEmail()` from `app.jsx`, as a function of the pre-state and of
how the fetch settles.  Mirrors the source: the blank-after-trim validation
guard, then `setLoading(true)`, the POST of `{prompt, groq_api_key}`, the
`response.ok` check, `setGeneratedEmail(data); setActiveTab('preview')` and
the success notification on success, the generic error notification in the
catch block, and `setLoading(false)` in the finally block. -/
def generateEmail (s : AppState) (o : GenOutcome) : GenResult :=
  if (jsTrim s.formData.prompt).isEmpty || (jsTrim s.formData.groqApiKey).isEmpty then
    { state := showNotification s genValidationMessage NotifType.error
      request := none }
  else
    let req : GenRequest :=
      { prompt := s.formData.prompt, groq_api_key := s.formData.groqApiKey }
    match o with
    | GenOutcome.networkFailure =>
        { state := { showNotification s genFailureMessage NotifType.error with
            loading := false }
          request := some req }
    | GenOutcome.errorResponse _ =>
        { state := { showNotification s genFailureMessage NotifType.error with
            loading := false }
          request := some req }
    | GenOutcome.okResponse none =>
        { state := { showNotification s genFailureMessage NotifType.error with
            loading := false }
          request := some req }
    | GenOutcome.okResponse (some data) =>
        { state := { showNotification
              { s with generatedEmail := some data, activeTab := Tab.preview }
              genSuccessMessage NotifType.success with
            loading := false }
          request := some req }

/-- The generate button: `onClick={generateEmail} disabled={loading}` — a
click reaches `generateEmail` only when `loading` is false. -/
def clickGenerateButton (s : AppState) (o : GenOutcome) : GenResult :=
  if s.loading then { state := s, request := none } else generateEmail s o

/-! ### The delivery operation (`sendEmail`). -/

/-- Request payload posted to `/api/send-email-smtp`. -/
structure SendRequest where
  recipients : List String
  subject : String
  content : String
  sender_email : String
  sender_password : String
  smtp_server : String
  smtp_port : Nat
deriving DecidableEq, Repr

/-- Body of a non-2xx delivery response, when it parses as JSON:
an optional `detail` string. -/
structure ErrBody where
  detail : Option String
deriving DecidableEq, Repr

/-- Body of a 2xx delivery response: `{ message, sent_to }`. -/
structure OkBody where
  message : String
  sent_to : List String
deriving DecidableEq, Repr

/-- How the delivery fetch settles.  In the response constructors a `none`
body means `response.json()` rejected (empty or malformed body). -/
inductive SendOutcome
  | networkFailure
  | errorResponse (status : Nat) (body : Option ErrBody)
  | okResponse (body : Option OkBody)

/-- The generic fallback of the delivery error path. -/
def sendFallbackMessage : String := "Failed to send email"

/-- The message of the exception `response.json()` rejects with on an empty
or malformed body (the V8 wording; engine-dependent but never empty and
never equal to `sendFallbackMessage`). -/
def jsonParseErrorMessage : String := "Unexpected end of JSON input"

/-- The message of the exception a failed `fetch` rejects with (the V8
wording; engine-dependent but never empty). -/
def fetchErrorMessage : String := "Failed to fetch"

/-- The validation message for an all-blank recipients list. -/
def sendRecipientsMessage : String := "Please add at least one recipient email"

/-- The validation message for missing sender credentials. -/
def sendCredentialsMessage : String := "Please provide sender email and password"

/-- The success message: interpolates `data.sent_to.length`. -/
def sendSuccessMessage (n : Nat) : String :=
  "Email sent successfully to " ++ toString n ++ " recipient(s)!"

/-- Result of one invocation of `sendEmail`. -/
structure SendResult where
  state : AppState
  request : Option SendRequest

/-- The message shown by the catch block of `sendEmail`:
`error.message || 'Failed to send email'` where the error is either the
thrown `Error(errorData.detail || 'Failed to send email')`, the rejection of
`response.json()`, or the rejection of `fetch` itself.  Every such message is
non-empty, so the `||` fallback inside the catch never fires. -/
def sendErrorShown (body : Option ErrBody) : String :=
  match body with
  | none => jsonParseErrorMessage
  | some eb =>
      match eb.detail with
      | none => sendFallbackMessage
      | some d => if d.isEmpty then sendFallbackMessage else d

/-- `sendEmail()` from `app.jsx`.  Mirrors the source: the silent
`if (!generatedEmail) return;` guard, the trim-filter of recipients, the two
validation notifications, `setLoading(true)`, the POST of the full payload,
the non-ok branch that parses the body and throws `detail || fallback`, the
success notification reporting `data.sent_to.length`, the catch block showing
`error.message || fallback`, and `setLoading(false)` in the finally block. -/
def sendEmail (s : AppState) (o : SendOutcome) : SendResult :=
  match s.generatedEmail with
  | none => { state := s, request := none }
  | some ge =>
    let validRecipients := s.formData.recipients.filter (fun e => !(jsTrim e).isEmpty)
    if validRecipients.length = 0 then
      { state := showNotification s sendRecipientsMessage NotifType.error
        request := none }
    else if s.formData.senderEmail.isEmpty || s.formData.senderPassword.isEmpty then
      { state := showNotification s sendCredentialsMessage NotifType.error
        request := none }
    else
      let req : SendRequest :=
        { recipients := validRecipients
          subject := ge.subject
          content := ge.content
          sender_email := s.formData.senderEmail
          sender_password := s.formData.senderPassword
          smtp_server := s.formData.smtpServer
          smtp_port := s.formData.smtpPort }
      match o with
      | SendOutcome.networkFailure =>
          { state := { showNotification s fetchErrorMessage NotifType.error with
              loading := false }
            request := some req }
      | SendOutcome.errorResponse _ body =>
          { state := { showNotification s (sendErrorShown body) NotifType.error with
              loading := false }
            request := some req }
      | SendOutcome.okResponse none =>
          { state := { showNotification s jsonParseErrorMessage NotifType.error with
              loading := false }
            request := some req }
      | SendOutcome.okResponse (some data) =>
          { state := { showNotification s (sendSuccessMessage data.sent_to.length)
                NotifType.success with
              loading := false }
            request := some req }

/-- The send button: `onClick={sendEmail} disabled={loading}`. -/
def clickSendButton (s : AppState) (o : SendOutcome) : SendResult :=
  if s.loading then { state := s, request := none } else sendEmail s o

/-! ### The notification timers (`showNotification` with its `setTimeout`).

`showNotification` stores the notification and schedules
`setTimeout(() => setNotification(null), 5000)`; it never cancels a
previously scheduled timeout.  We model the visible slot together with the
multiset of absolute expiry times of all still-pending timeouts. -/

/-- Notification slot plus pending `setTimeout` expiry times (absolute,
in milliseconds). -/
structure NotifState where
  now : Nat
  notification : Option Notification
  timers : List Nat

/-- `showNotification(message, type)` at the current instant: replace the
visible notification and schedule one more clearing timeout 5000 ms from
now.  The pending timers of superseded notifications stay scheduled. -/
def showNotificationAt (s : NotifState) (message : String) (type : NotifType) :
    NotifState :=
  { s with
    notification := some { message := message, type := type }
    timers := s.timers ++ [s.now + 5000] }

/-- Let time pass until instant `t` with no user activity: every pending
timeout with expiry ≤ `t` fires and runs `setNotification(null)`
(unconditionally — the callback does not check which notification is
visible). -/
def advanceTo (s : NotifState) (t : Nat) : NotifState :=
  { now := t
    notification := if s.timers.any (fun e => decide (e ≤ t)) then none else s.notification
    timers := s.timers.filter (fun e => decide (t < e)) }

/-! ## Claim theorems -/

/-- A state whose in-flight flag is set and whose form passes the generation
validation guard. -/
def inflightState : AppState :=
  { initialState with
    loading := true
    formData := { initialFormData with prompt := "hi", groqApiKey := "k" } }

/-- Claim C1, counterexample: in a state whose in-flight flag (`loading`) is
set, invoking `generateEmail` directly still issues a network call — the
function never checks the flag, so the claimed single-flight exclusion fails
at the controller level. -/
theorem generateEmail_inflight_still_calls :
    inflightState.loading = true ∧
    (generateEmail inflightState (GenOutcome.okResponse none)).request =
      some { prompt := "hi", groq_api_key := "k" } := by
  constructor
  · rfl
  · decide

/-- Claim C1, amended: the in-flight exclusion is enforced only at the
presentation layer — the generate and send buttons are rendered with
`disabled={loading}`, so while the flag is set a button activation performs
no network call and leaves the state unchanged; the controller functions
themselves do not check the flag. -/
theorem button_inflight_exclusion (s : AppState) (og : GenOutcome) (os : SendOutcome)
    (h : s.loading = true) :
    (clickGenerateButton s og).request = none ∧
    (clickGenerateButton s og).state = s ∧
    (clickSendButton s os).request = none ∧
    (clickSendButton s os).state = s := by
  simp [clickGenerateButton, clickSendButton, h]

/-- Witness for `button_inflight_exclusion` at a concrete in-flight state. -/
theorem button_inflight_exclusion_witness :
    (clickGenerateButton inflightState GenOutcome.networkFailure).request = none ∧
    (clickGenerateButton inflightState GenOutcome.networkFailure).state = inflightState ∧
    (clickSendButton inflightState SendOutcome.networkFailure).request = none ∧
    (clickSendButton inflightState SendOutcome.networkFailure).state = inflightState :=
  button_inflight_exclusion inflightState GenOutcome.networkFailure
    SendOutcome.networkFailure rfl

/-- Claim C2: starting from any non-empty recipients list (the initial list
`[""]` in particular), every sequence of `handleRecipientChange`,
`addRecipient` and `removeRecipient` calls keeps the length at least 1;
`removeRecipient` is a no-op on a one-element list and otherwise deletes
exactly the slot at the requested index. -/
theorem recipients_invariant :
    (∀ (l : List String) (ops : List RecipientsOp), 1 ≤ l.length →
        1 ≤ (applyOps l ops).length) ∧
    (∀ (l : List String) (i : Nat), l.length = 1 → removeRecipient l i = l) ∧
    (∀ (l : List String) (i : Nat), 1 < l.length →
        removeRecipient l i = l.eraseIdx i) := by
  refine ⟨?_, ?_, removeRecipient_eq_eraseIdx⟩
  · intro l ops
    induction ops generalizing l with
    | nil => intro h; simpa [applyOps] using h
    | cons op ops ih =>
        intro h
        exact ih (applyOp l op) (applyOp_length_pos l op h)
  · intro l i h
    simp [removeRecipient, h]

/-- Witness for `recipients_invariant` at concrete lists. -/
theorem recipients_invariant_witness :
    1 ≤ (applyOps [""] [RecipientsOp.remove 0, RecipientsOp.remove 0]).length ∧
    removeRecipient ["a"] 0 = ["a"] ∧
    removeRecipient ["a", "b"] 1 = (["a", "b"] : List String).eraseIdx 1 :=
  ⟨recipients_invariant.1 [""] [RecipientsOp.remove 0, RecipientsOp.remove 0]
      (by decide),
   recipients_invariant.2.1 ["a"] 0 (by decide),
   recipients_invariant.2.2 ["a", "b"] 1 (by decide)⟩

/-- Claim C4: with a blank-after-trim prompt or credential, `generateEmail`
issues no network call and raises the validation error notification,
whatever the environment would have answered. -/
theorem generateEmail_validation (s : AppState) (o : GenOutcome)
    (h : jsTrim s.formData.prompt = "" ∨ jsTrim s.formData.groqApiKey = "") :
    (generateEmail s o).request = none ∧
    (generateEmail s o).state.notification =
      some { message := genValidationMessage, type := NotifType.error } := by
  have hb : ((jsTrim s.formData.prompt).isEmpty ||
      (jsTrim s.formData.groqApiKey).isEmpty) = true := by
    rcases h with h | h <;> simp [String.isEmpty_iff, h]
  rw [generateEmail, if_pos hb]
  exact ⟨rfl, rfl⟩

/-- Witness for `generateEmail_validation` at the initial state (blank
prompt and credential). -/
theorem generateEmail_validation_witness :
    (generateEmail initialState GenOutcome.networkFailure).request = none ∧
    (generateEmail initialState GenOutcome.networkFailure).state.notification =
      some { message := genValidationMessage, type := NotifType.error } :=
  generateEmail_validation initialState GenOutcome.networkFailure (Or.inl (by decide))

/-- Claim C10: `handleRecipientChange` performs no bounds check — an
in-bounds index replaces exactly that slot (same length, all other slots
unchanged), and an index at or past the end grows the list to `index + 1`
entries with the value written at `index`. -/
theorem handleRecipientChange_unbounded (l : List String) (i : Nat) (v : String) :
    (i < l.length →
      (handleRecipientChange l i v).length = l.length ∧
      (handleRecipientChange l i v)[i]? = some v ∧
      ∀ j : Nat, j ≠ i → (handleRecipientChange l i v)[j]? = l[j]?) ∧
    (l.length ≤ i →
      (handleRecipientChange l i v).length = i + 1 ∧
      (handleRecipientChange l i v)[i]? = some v) := by
  constructor
  · intro hi
    refine ⟨?_, ?_, ?_⟩
    · simp [handleRecipientChange, hi]
    · simp [handleRecipientChange, hi, List.getElem?_set_self, hi]
    · intro j hj
      simp [handleRecipientChange, hi, List.getElem?_set_ne (Ne.symm hj)]
  · intro hi
    have hni : ¬ i < l.length := Nat.not_lt.mpr hi
    constructor
    · simp [handleRecipientChange, hni]
      omega
    · rw [handleRecipientChange, if_neg hni]
      have hlen : (l ++ List.replicate (i - l.length) "").length = i := by
        simp
        omega
      rw [List.getElem?_append_right (le_of_eq hlen), hlen]
      simp

/-- Witness for `handleRecipientChange_unbounded`: an in-bounds write on a
two-element list and an out-of-bounds write growing a one-element list. -/
theorem handleRecipientChange_unbounded_witness :
    ((handleRecipientChange ["a", "b"] 0 "z").length = 2 ∧
     (handleRecipientChange ["a", "b"] 0 "z")[0]? = some "z" ∧
     (handleRecipientChange ["a", "b"] 0 "z")[1]? = (["a", "b"] : List String)[1]?) ∧
    ((handleRecipientChange ["a"] 3 "z").length = 3 + 1 ∧
     (handleRecipientChange ["a"] 3 "z")[3]? = some "z") :=
  ⟨⟨((handleRecipientChange_unbounded ["a", "b"] 0 "z").1 (by decide)).1,
    ((handleRecipientChange_unbounded ["a", "b"] 0 "z").1 (by decide)).2.1,
    ((handleRecipientChange_unbounded ["a", "b"] 0 "z").1 (by decide)).2.2 1 (by decide)⟩,
   ⟨((handleRecipientChange_unbounded ["a"] 3 "z").2 (by decide)).1,
    ((handleRecipientChange_unbounded ["a"] 3 "z").2 (by decide)).2⟩⟩

/-- A state with no generated email but an otherwise send-ready form. -/
def noGenState : AppState :=
  { initialState with
    formData := { initialFormData with
      recipients := ["a@x.com"]
      senderEmail := "me@x.com"
      senderPassword := "p" } }

/-- A state ready for delivery: generated email present, one non-blank and
one blank recipient slot, sender credentials filled in. -/
def sendReadyState : AppState :=
  { initialState with
    generatedEmail := some { subject := "Invoice Follow-up", content := "Hi team," }
    formData := { initialFormData with
      recipients := ["a@x.com", ""]
      senderEmail := "me@x.com"
      senderPassword := "p" } }

/-- A send-ready state whose recipient slots are all blank after trimming. -/
def blankRecipientsState : AppState :=
  { sendReadyState with
    formData := { sendReadyState.formData with recipients := ["", "  "] } }

/-- A state with a generated email and a non-blank recipient but an empty
sender password. -/
def noCredentialsState : AppState :=
  { sendReadyState with
    formData := { sendReadyState.formData with senderPassword := "" } }

/-- Claim C3, counterexample: with GeneratedEmail absent, `sendEmail`
issues no network call but also raises no notification — the guard is a bare
`return`, so the claimed error notification never appears. -/
theorem sendEmail_missing_email_silent :
    noGenState.generatedEmail = none ∧
    (sendEmail noGenState (SendOutcome.okResponse none)).request = none ∧
    (sendEmail noGenState (SendOutcome.okResponse none)).state.notification = none :=
  ⟨rfl, rfl, rfl⟩

/-- Claim C3, amended: every failing `sendEmail` precondition issues no
network call; an absent GeneratedEmail returns silently with the state
unchanged (no notification), while an all-blank recipients list or an empty
sender email/password raises its error notification. -/
theorem sendEmail_preconditions (s : AppState) (o : SendOutcome) :
    (s.generatedEmail = none →
      (sendEmail s o).request = none ∧ (sendEmail s o).state = s) ∧
    (s.generatedEmail ≠ none →
      (s.formData.recipients.filter (fun e => !(jsTrim e).isEmpty)).length = 0 →
      (sendEmail s o).request = none ∧
      (sendEmail s o).state.notification =
        some { message := sendRecipientsMessage, type := NotifType.error }) ∧
    (s.generatedEmail ≠ none →
      (s.formData.recipients.filter (fun e => !(jsTrim e).isEmpty)).length ≠ 0 →
      (s.formData.senderEmail = "" ∨ s.formData.senderPassword = "") →
      (sendEmail s o).request = none ∧
      (sendEmail s o).state.notification =
        some { message := sendCredentialsMessage, type := NotifType.error }) := by
  refine ⟨?_, ?_, ?_⟩
  · intro h
    simp [sendEmail, h]
  · intro hge hr
    obtain ⟨ge, hge⟩ := Option.ne_none_iff_exists'.mp hge
    simp [sendEmail, hge, hr, showNotification]
  · intro hge hr hcred
    obtain ⟨ge, hge⟩ := Option.ne_none_iff_exists'.mp hge
    have hb : (s.formData.senderEmail.isEmpty || s.formData.senderPassword.isEmpty) =
        true := by
      rcases hcred with h | h <;> simp [String.isEmpty_iff, h]
    simp [sendEmail, hge, hr, hb, showNotification]

/-- Witness for `sendEmail_preconditions`: the three failing preconditions
at concrete states. -/
theorem sendEmail_preconditions_witness :
    ((sendEmail noGenState SendOutcome.networkFailure).request = none ∧
     (sendEmail noGenState SendOutcome.networkFailure).state = noGenState) ∧
    ((sendEmail blankRecipientsState SendOutcome.networkFailure).request = none ∧
     (sendEmail blankRecipientsState SendOutcome.networkFailure).state.notification =
       some { message := sendRecipientsMessage, type := NotifType.error }) ∧
    ((sendEmail noCredentialsState SendOutcome.networkFailure).request = none ∧
     (sendEmail noCredentialsState SendOutcome.networkFailure).state.notification =
       some { message := sendCredentialsMessage, type := NotifType.error }) :=
  ⟨(sendEmail_preconditions noGenState SendOutcome.networkFailure).1 rfl,
   (sendEmail_preconditions blankRecipientsState SendOutcome.networkFailure).2.1
     (by decide) (by decide),
   (sendEmail_preconditions noCredentialsState SendOutcome.networkFailure).2.2
     (by decide) (by decide) (Or.inr rfl)⟩

/-- Claim C5: when the generation preconditions hold and the service answers
2xx with `{subject, content}`, the controller stores the result as the
generated email, switches the active tab to `preview`, raises the success
notification and clears the in-flight flag (and posts exactly the prompt and
credential). -/
theorem generateEmail_success (s : AppState) (o : GenOutcome)
    (subject content : String)
    (hp : jsTrim s.formData.prompt ≠ "") (hk : jsTrim s.formData.groqApiKey ≠ "")
    (ho : o = GenOutcome.okResponse (some { subject := subject, content := content })) :
    (generateEmail s o).state.generatedEmail =
      some { subject := subject, content := content } ∧
    (generateEmail s o).state.activeTab = Tab.preview ∧
    (generateEmail s o).state.notification =
      some { message := genSuccessMessage, type := NotifType.success } ∧
    (generateEmail s o).state.loading = false ∧
    (generateEmail s o).request =
      some { prompt := s.formData.prompt, groq_api_key := s.formData.groqApiKey } := by
  subst ho
  have h1 : (jsTrim s.formData.prompt).isEmpty = false :=
    Bool.eq_false_iff.mpr (fun h => hp ((String.isEmpty_iff _).mp h))
  have h2 : (jsTrim s.formData.groqApiKey).isEmpty = false :=
    Bool.eq_false_iff.mpr (fun h => hk ((String.isEmpty_iff _).mp h))
  rw [generateEmail, if_neg (by simp [h1, h2])]
  exact ⟨rfl, rfl, rfl, rfl, rfl⟩

/-- Witness for `generateEmail_success`: the spec scenario with
prompt "Follow up on invoice" and credential "k1". -/
theorem generateEmail_success_witness :
    (generateEmail
        { initialState with formData :=
          { initialFormData with prompt := "Follow up on invoice", groqApiKey := "k1" } }
        (GenOutcome.okResponse
          (some { subject := "Invoice Follow-up", content := "Hi team," }))).state.generatedEmail =
      some { subject := "Invoice Follow-up", content := "Hi team," } ∧
    (generateEmail
        { initialState with formData :=
          { initialFormData with prompt := "Follow up on invoice", groqApiKey := "k1" } }
        (GenOutcome.okResponse
          (some { subject := "Invoice Follow-up", content := "Hi team," }))).state.activeTab =
      Tab.preview ∧
    (generateEmail
        { initialState with formData :=
          { initialFormData with prompt := "Follow up on invoice", groqApiKey := "k1" } }
        (GenOutcome.okResponse
          (some { subject := "Invoice Follow-up", content := "Hi team," }))).state.notification =
      some { message := genSuccessMessage, type := NotifType.success } ∧
    (generateEmail
        { initialState with formData :=
          { initialFormData with prompt := "Follow up on invoice", groqApiKey := "k1" } }
        (GenOutcome.okResponse
          (some { subject := "Invoice Follow-up", content := "Hi team," }))).state.loading =
      false ∧
    (generateEmail
        { initialState with formData :=
          { initialFormData with prompt := "Follow up on invoice", groqApiKey := "k1" } }
        (GenOutcome.okResponse
          (some { subject := "Invoice Follow-up", content := "Hi team," }))).request =
      some { prompt := "Follow up on invoice", groq_api_key := "k1" } :=
  generateEmail_success
    { initialState with formData :=
      { initialFormData with prompt := "Follow up on invoice", groqApiKey := "k1" } }
    (GenOutcome.okResponse (some { subject := "Invoice Follow-up", content := "Hi team," }))
    "Invoice Follow-up" "Hi team," (by decide) (by decide) rfl

/-- Claim C6: when delivery preconditions hold and the service answers 2xx
with `{message, sent_to}`, the posted payload carries exactly the recipients
that are non-blank after trimming (every posted recipient is non-blank), the
success notification reports `sent_to.length`, the active tab and the
generated email are unchanged, and the in-flight flag is cleared. -/
theorem sendEmail_success (s : AppState) (o : SendOutcome) (ge : GeneratedEmail)
    (data : OkBody)
    (hge : s.generatedEmail = some ge)
    (hr : (s.formData.recipients.filter (fun e => !(jsTrim e).isEmpty)).length ≠ 0)
    (he : s.formData.senderEmail ≠ "") (hpw : s.formData.senderPassword ≠ "")
    (ho : o = SendOutcome.okResponse (some data)) :
    (sendEmail s o).request =
      some { recipients := s.formData.recipients.filter (fun e => !(jsTrim e).isEmpty)
             subject := ge.subject
             content := ge.content
             sender_email := s.formData.senderEmail
             sender_password := s.formData.senderPassword
             smtp_server := s.formData.smtpServer
             smtp_port := s.formData.smtpPort } ∧
    (∀ r ∈ s.formData.recipients.filter (fun e => !(jsTrim e).isEmpty),
      jsTrim r ≠ "") ∧
    (sendEmail s o).state.notification =
      some { message := sendSuccessMessage data.sent_to.length
             type := NotifType.success } ∧
    (sendEmail s o).state.activeTab = s.activeTab ∧
    (sendEmail s o).state.generatedEmail = s.generatedEmail ∧
    (sendEmail s o).state.loading = false := by
  subst ho
  have h1 : s.formData.senderEmail.isEmpty = false :=
    Bool.eq_false_iff.mpr (fun h => he ((String.isEmpty_iff _).mp h))
  have h2 : s.formData.senderPassword.isEmpty = false :=
    Bool.eq_false_iff.mpr (fun h => hpw ((String.isEmpty_iff _).mp h))
  refine ⟨?_, ?_, ?_, ?_, ?_, ?_⟩
  · simp [sendEmail, hge, hr, h1, h2]
  · intro r hrm hblank
    have hmem := (List.mem_filter.mp hrm).2
    rw [hblank] at hmem
    simp at hmem
    exact absurd hmem (by decide)
  · simp [sendEmail, hge, hr, h1, h2, showNotification]
  · simp [sendEmail, hge, hr, h1, h2, showNotification]
  · simp [sendEmail, hge, hr, h1, h2, showNotification, hge]
  · simp [sendEmail, hge, hr, h1, h2, showNotification]

/-- Witness for `sendEmail_success`: the spec scenario — recipients
`["a@x.com", ""]`, and the service confirms one recipient. -/
theorem sendEmail_success_witness :
    (sendEmail sendReadyState
        (SendOutcome.okResponse (some { message := "ok", sent_to := ["a@x.com"] }))).request =
      some { recipients :=
               sendReadyState.formData.recipients.filter (fun e => !(jsTrim e).isEmpty)
             subject := GeneratedEmail.subject
               { subject := "Invoice Follow-up", content := "Hi team," }
             content := GeneratedEmail.content
               { subject := "Invoice Follow-up", content := "Hi team," }
             sender_email := sendReadyState.formData.senderEmail
             sender_password := sendReadyState.formData.senderPassword
             smtp_server := sendReadyState.formData.smtpServer
             smtp_port := sendReadyState.formData.smtpPort } ∧
    (∀ r ∈ sendReadyState.formData.recipients.filter (fun e => !(jsTrim e).isEmpty),
      jsTrim r ≠ "") ∧
    (sendEmail sendReadyState
        (SendOutcome.okResponse
          (some { message := "ok", sent_to := ["a@x.com"] }))).state.notification =
      some { message := sendSuccessMessage 1, type := NotifType.success } ∧
    (sendEmail sendReadyState
        (SendOutcome.okResponse
          (some { message := "ok", sent_to := ["a@x.com"] }))).state.activeTab =
      sendReadyState.activeTab ∧
    (sendEmail sendReadyState
        (SendOutcome.okResponse
          (some { message := "ok", sent_to := ["a@x.com"] }))).state.generatedEmail =
      sendReadyState.generatedEmail ∧
    (sendEmail sendReadyState
        (SendOutcome.okResponse
          (some { message := "ok", sent_to := ["a@x.com"] }))).state.loading = false :=
  sendEmail_success sendReadyState
    (SendOutcome.okResponse (some { message := "ok", sent_to := ["a@x.com"] }))
    { subject := "Invoice Follow-up", content := "Hi team," }
    { message := "ok", sent_to := ["a@x.com"] }
    rfl (by decide) (by decide) (by decide) rfl

/-- Claim C7, counterexample: an HTTP 500 response with no parseable body
does not yield the generic fallback message — `response.json()` rejects and
the catch block surfaces the JSON parse error's message instead. -/
theorem sendEmail_500_no_body_counterexample :
    (sendEmail sendReadyState (SendOutcome.errorResponse 500 none)).state.notification =
      some { message := jsonParseErrorMessage, type := NotifType.error } ∧
    jsonParseErrorMessage ≠ sendFallbackMessage := by
  constructor
  · decide
  · decide

/-- Claim C7, amended: on a non-2xx delivery response the error notification
carries the service-provided `detail` when the body parses and `detail` is a
non-empty string; a parseable body without a usable `detail` yields the
generic fallback; an empty or unparseable body yields the JSON parse error's
message, not the generic fallback.  The in-flight flag is cleared in every
case. -/
theorem sendEmail_error_messages (s : AppState) (ge : GeneratedEmail) (status : Nat)
    (hge : s.generatedEmail = some ge)
    (hr : (s.formData.recipients.filter (fun e => !(jsTrim e).isEmpty)).length ≠ 0)
    (he : s.formData.senderEmail ≠ "") (hpw : s.formData.senderPassword ≠ "") :
    (∀ d : String, d ≠ "" →
      (sendEmail s (SendOutcome.errorResponse status
          (some { detail := some d }))).state.notification =
        some { message := d, type := NotifType.error }) ∧
    (sendEmail s (SendOutcome.errorResponse status
        (some { detail := none }))).state.notification =
      some { message := sendFallbackMessage, type := NotifType.error } ∧
    (sendEmail s (SendOutcome.errorResponse status none)).state.notification =
      some { message := jsonParseErrorMessage, type := NotifType.error } ∧
    (sendEmail s (SendOutcome.errorResponse status none)).state.loading = false := by
  have h1 : s.formData.senderEmail.isEmpty = false :=
    Bool.eq_false_iff.mpr (fun h => he ((String.isEmpty_iff _).mp h))
  have h2 : s.formData.senderPassword.isEmpty = false :=
    Bool.eq_false_iff.mpr (fun h => hpw ((String.isEmpty_iff _).mp h))
  refine ⟨?_, ?_, ?_, ?_⟩
  · intro d hd
    have hde : d.isEmpty = false :=
      Bool.eq_false_iff.mpr (fun h => hd ((String.isEmpty_iff _).mp h))
    simp [sendEmail, hge, hr, h1, h2, sendErrorShown, hde, showNotification]
  · simp [sendEmail, hge, hr, h1, h2, sendErrorShown, showNotification]
  · simp [sendEmail, hge, hr, h1, h2, sendErrorShown, showNotification]
  · simp [sendEmail, hge, hr, h1, h2, showNotification]

/-- Witness for `sendEmail_error_messages`: the spec scenarios — HTTP 500
with `{detail: "auth failed"}` and HTTP 500 with no body. -/
theorem sendEmail_error_messages_witness :
    (sendEmail sendReadyState (SendOutcome.errorResponse 500
        (some { detail := some "auth failed" }))).state.notification =
      some { message := "auth failed", type := NotifType.error } ∧
    (sendEmail sendReadyState (SendOutcome.errorResponse 500
        (some { detail := none }))).state.notification =
      some { message := sendFallbackMessage, type := NotifType.error } ∧
    (sendEmail sendReadyState (SendOutcome.errorResponse 500 none)).state.notification =
      some { message := jsonParseErrorMessage, type := NotifType.error } ∧
    (sendEmail sendReadyState (SendOutcome.errorResponse 500 none)).state.loading =
      false :=
  ⟨(sendEmail_error_messages sendReadyState
      { subject := "Invoice Follow-up", content := "Hi team," } 500
      rfl (by decide) (by decide) (by decide)).1 "auth failed" (by decide),
   (sendEmail_error_messages sendReadyState
      { subject := "Invoice Follow-up", content := "Hi team," } 500
      rfl (by decide) (by decide) (by decide)).2.1,
   (sendEmail_error_messages sendReadyState
      { subject := "Invoice Follow-up", content := "Hi team," } 500
      rfl (by decide) (by decide) (by decide)).2.2.1,
   (sendEmail_error_messages sendReadyState
      { subject := "Invoice Follow-up", content := "Hi team," } 500
      rfl (by decide) (by decide) (by decide)).2.2.2⟩

/-- Claim C9: when the generation call fails — network error or non-2xx
status — the generated email and active tab are unchanged, the in-flight
flag is cleared, and the error notification carries the fixed generic
message, identical for every status (the status code is never surfaced). -/
theorem generateEmail_failure_frame (s : AppState) (status : Nat)
    (hp : jsTrim s.formData.prompt ≠ "") (hk : jsTrim s.formData.groqApiKey ≠ "") :
    ((generateEmail s (GenOutcome.errorResponse status)).state.generatedEmail =
        s.generatedEmail ∧
     (generateEmail s (GenOutcome.errorResponse status)).state.activeTab =
        s.activeTab ∧
     (generateEmail s (GenOutcome.errorResponse status)).state.loading = false ∧
     (generateEmail s (GenOutcome.errorResponse status)).state.notification =
        some { message := genFailureMessage, type := NotifType.error }) ∧
    ((generateEmail s GenOutcome.networkFailure).state.generatedEmail =
        s.generatedEmail ∧
     (generateEmail s GenOutcome.networkFailure).state.activeTab = s.activeTab ∧
     (generateEmail s GenOutcome.networkFailure).state.loading = false ∧
     (generateEmail s GenOutcome.networkFailure).state.notification =
        some { message := genFailureMessage, type := NotifType.error }) ∧
    (∀ status' : Nat,
      (generateEmail s (GenOutcome.errorResponse status)).state.notification =
      (generateEmail s (GenOutcome.errorResponse status')).state.notification) := by
  have h1 : (jsTrim s.formData.prompt).isEmpty = false :=
    Bool.eq_false_iff.mpr (fun h => hp ((String.isEmpty_iff _).mp h))
  have h2 : (jsTrim s.formData.groqApiKey).isEmpty = false :=
    Bool.eq_false_iff.mpr (fun h => hk ((String.isEmpty_iff _).mp h))
  refine ⟨⟨?_, ?_, ?_, ?_⟩, ⟨?_, ?_, ?_, ?_⟩, ?_⟩ <;>
    simp [generateEmail, h1, h2, showNotification]

/-- A non-loading state whose form passes the generation validation guard. -/
def validGenFormState : AppState :=
  { initialState with
    formData := { initialFormData with prompt := "hi", groqApiKey := "k" } }

/-- Witness for `generateEmail_failure_frame` at a concrete valid form and
status 503. -/
theorem generateEmail_failure_frame_witness :
    ((generateEmail validGenFormState (GenOutcome.errorResponse 503)).state.generatedEmail =
        validGenFormState.generatedEmail ∧
     (generateEmail validGenFormState (GenOutcome.errorResponse 503)).state.activeTab =
        validGenFormState.activeTab ∧
     (generateEmail validGenFormState (GenOutcome.errorResponse 503)).state.loading =
        false ∧
     (generateEmail validGenFormState (GenOutcome.errorResponse 503)).state.notification =
        some { message := genFailureMessage, type := NotifType.error }) ∧
    ((generateEmail validGenFormState GenOutcome.networkFailure).state.generatedEmail =
        validGenFormState.generatedEmail ∧
     (generateEmail validGenFormState GenOutcome.networkFailure).state.activeTab =
        validGenFormState.activeTab ∧
     (generateEmail validGenFormState GenOutcome.networkFailure).state.loading = false ∧
     (generateEmail validGenFormState GenOutcome.networkFailure).state.notification =
        some { message := genFailureMessage, type := NotifType.error }) ∧
    (∀ status' : Nat,
      (generateEmail validGenFormState (GenOutcome.errorResponse 503)).state.notification =
      (generateEmail validGenFormState (GenOutcome.errorResponse status')).state.notification) :=
  generateEmail_failure_frame validGenFormState 503 (by decide) (by decide)

/-- A notification raised at instant 0 and superseded at instant 1000. -/
def supersededRun : NotifState :=
  showNotificationAt
    (advanceTo
      (showNotificationAt { now := 0, notification := none, timers := [] }
        "first" NotifType.success)
      1000)
    "second" NotifType.error

/-- Claim C8, counterexample: the superseding notification, created at
instant 1000, is already gone at instant 5000 — the superseded
notification's 5-second timeout is never cancelled and its callback clears
whatever is visible — although the claimed window measured from its own
creation runs until 6000. -/
theorem notification_superseded_cleared_early :
    supersededRun.now = 1000 ∧
    supersededRun.notification =
      some { message := "second", type := NotifType.error } ∧
    (advanceTo supersededRun 5000).notification = none ∧
    (5000 : Nat) < 1000 + 5000 := by
  refine ⟨rfl, rfl, ?_, by decide⟩
  decide

/-- Claim C8, amended: `showNotification` replaces any visible notification
(at most one is ever visible) and schedules a fresh 5-second timeout, but
pending timeouts of superseded notifications are not cancelled and their
callbacks clear whatever notification is visible when they fire.  Hence a
notification raised with no timeout pending stays visible for exactly its
own 5-second window, while any notification is certainly gone 5 seconds
after its creation. -/
theorem showNotification_lifecycle (s : NotifState) (m : String) (k : NotifType)
    (t : Nat) :
    (showNotificationAt s m k).notification =
      some { message := m, type := k } ∧
    (showNotificationAt s m k).timers = s.timers ++ [s.now + 5000] ∧
    (s.timers = [] → t < s.now + 5000 →
      (advanceTo (showNotificationAt s m k) t).notification =
        some { message := m, type := k }) ∧
    (s.now + 5000 ≤ t →
      (advanceTo (showNotificationAt s m k) t).notification = none) := by
  refine ⟨rfl, rfl, ?_, ?_⟩
  · intro hempty ht
    have : ¬ s.now + 5000 ≤ t := Nat.not_le.mpr ht
    simp [advanceTo, showNotificationAt, hempty, this]
  · intro ht
    simp [advanceTo, showNotificationAt, ht]

/-- Witness for `showNotification_lifecycle`: a notification raised at
instant 0 with no pending timeout is still visible at 4999 and gone at
5000. -/
theorem showNotification_lifecycle_witness :
    ((showNotificationAt { now := 0, notification := none, timers := [] }
        "hello" NotifType.success).notification =
      some { message := "hello", type := NotifType.success } ∧
     (showNotificationAt { now := 0, notification := none, timers := [] }
        "hello" NotifType.success).timers = [] ++ [0 + 5000] ∧
     (advanceTo (showNotificationAt { now := 0, notification := none, timers := [] }
        "hello" NotifType.success) 4999).notification =
      some { message := "hello", type := NotifType.success }) ∧
    (advanceTo (showNotificationAt { now := 0, notification := none, timers := [] }
        "hello" NotifType.success) 5000).notification = none := by
  have h4999 := showNotification_lifecycle
    { now := 0, notification := none, timers := [] } "hello" NotifType.success 4999
  have h5000 := showNotification_lifecycle
    { now := 0, notification := none, timers := [] } "hello" NotifType.success 5000
  exact ⟨⟨h4999.1, h4999.2.1, h4999.2.2.1 rfl (by decide)⟩, h5000.2.2.2 (by decide)⟩

end EmailSender
